import Mathlib

/-!
Shallow embedding of the Krishi-Raksha browser client
(`Frontend/src/App.jsx`): the session state held in the `App` component,
the event handlers (`handleImageFile`, `handleSendClick`,
`handleSeeMoreClick`), and the view projections (bar series for the
classification probabilities, doughnut series for the severity, detail
text resolution). JavaScript optional values are `Option`; a thrown
exception is `Except.error`; JavaScript `||` is modelled by explicit
truthiness helpers (`undefined`, `""` and `0` are falsy).
-/

namespace KrishiRaksha

/-- A file object as delivered by the drop widget: its MIME `type`
property may be missing (`none` models a JS object without the field). -/
structure JSFile where
  type : Option String
  name : String
deriving DecidableEq

/-- The `disease_classification` part of the analyze response. -/
structure DiseaseClassification where
  predicted_class : Option String
  probabilities : Option (List (String × ℚ))
deriving DecidableEq

/-- The `disease_segmentation` part of the analyze response. -/
structure DiseaseSegmentation where
  severity : Option ℚ
  classification : Option String
  boundary_pixels : Option ℚ
  disease_pixels : Option ℚ
  total_leaf_area : Option ℚ
  original_image : Option String
  diseased_area_image : Option String
  annotated_image : Option String
deriving DecidableEq

/-- The parsed JSON body of an analyze response (`data` in
`handleSendClick`); the `error` field is read on non-ok statuses. -/
structure AnalyzeResult where
  disease_classification : Option DiseaseClassification
  disease_segmentation : Option DiseaseSegmentation
  error : Option String
deriving DecidableEq

/-- The parsed JSON body of a RAG response (`data` in
`handleSeeMoreClick`); the text may sit under `message`, `answer` or
`response`, and `error` is read on non-ok statuses. -/
structure RagResult where
  message : Option String
  answer : Option String
  response : Option String
  error : Option String
deriving DecidableEq

/-- The `useState` slots of the `App` component. -/
structure SessionState where
  loading : Bool
  ragLoading : Bool
  file : Option JSFile
  previewUrl : Option String
  dragActive : Bool
  error : Option String
  analyzeResult : Option AnalyzeResult
  ragResult : Option RagResult
deriving DecidableEq

/-- The initial state produced by the `useState` calls. -/
def initialState : SessionState :=
  { loading := false, ragLoading := false, file := none, previewUrl := none
  , dragActive := false, error := none, analyzeResult := none, ragResult := none }

/-- JS truthiness of a possibly-missing string: `undefined` and `""` are
falsy. -/
def truthyStr : Option String → Bool
  | none => false
  | some s => !(s == "")

/-- `a || b` on possibly-missing strings, returning the raw JS value. -/
def jsOrOpt (a b : Option String) : Option String :=
  if truthyStr a then a else b

/-- `a || d` where `a` is a possibly-missing string and `d` a string
default (used for `data.error || "..."` and the payload fallbacks). -/
def jsOrString (a : Option String) (d : String) : String :=
  match a with
  | none => d
  | some s => if s = "" then d else s

/-- `a || d` where `a` is a possibly-missing number (`0` is falsy). -/
def jsOrNum (a : Option ℚ) (d : ℚ) : ℚ :=
  match a with
  | none => d
  | some x => if x = 0 then d else x

/-- `Response.ok` of the Fetch API: status in the 200–299 range. -/
def resOk (status : Nat) : Bool :=
  200 ≤ status && status ≤ 299

/-- Outcome of an awaited `fetch` + `res.json()`: either a response with
a status and a parsed body, or a thrown failure (network error or JSON
parse error), which the handlers catch. -/
inductive FetchOutcome (α : Type) where
  | response (status : Nat) (body : α)
  | failure (msg : String)

/-- Whether an `Except` computation finished without throwing. -/
def exceptOk {ε α : Type} : Except ε α → Bool
  | Except.ok _ => true
  | Except.error _ => false

/-- JS `String.prototype.startsWith`, via character-list matching. -/
def jsStartsWith (s p : String) : Bool :=
  p.data.isPrefixOf s.data

/-- `resetState` (App.jsx:40–44): clears error, analyzeResult, ragResult. -/
def resetState (s : SessionState) : SessionState :=
  { s with error := none, analyzeResult := none, ragResult := none }

/-- `URL.createObjectURL`, modelled as a deterministic blob reference. -/
def createObjectURL (f : JSFile) : String :=
  "blob:" ++ f.name

/-- `handleImageFile` (App.jsx:46–58). `selectedFile?.type.startsWith("image/")`
short-circuits the whole chain to `undefined` (falsy) when the candidate is
nullish, but throws a TypeError when the candidate exists and its `type`
property is missing. State setters are applied in source order, so in the
else branch `resetState()` runs after `setError(...)`. -/
def handleImageFile (selectedFile : Option JSFile) (s : SessionState) :
    Except String SessionState :=
  match selectedFile with
  | none =>
      Except.ok (resetState
        { s with error := some "❌ Please select a valid image file"
               , file := none, previewUrl := none })
  | some f =>
      match f.type with
      | none =>
          Except.error "TypeError: undefined has no method startsWith"
      | some t =>
          if jsStartsWith t "image/" then
            Except.ok
              { (resetState { s with file := some f
                                   , previewUrl := some (createObjectURL f) })
                with error := some "✅ Image updated successfully!" }
          else
            Except.ok (resetState
              { s with error := some "❌ Please select a valid image file"
                     , file := none, previewUrl := none })

/-- `handleSendClick` (App.jsx:72–100), as a function of the fetch
outcome: precondition check, loading flag, success / non-ok / thrown
branches, and the `finally` that clears the loading flag. -/
def handleSendClick (outcome : FetchOutcome AnalyzeResult)
    (s : SessionState) : SessionState :=
  match s.file with
  | none => { s with error := some "❌ Please select or drop an image" }
  | some _ =>
      let s1 := { s with loading := true }
      let s2 :=
        match outcome with
        | FetchOutcome.response status data =>
            if resOk status then
              { s1 with analyzeResult := some data, error := none
                      , ragResult := none }
            else
              { s1 with error := some ("❌ Analyze API error: "
                  ++ jsOrString data.error "Failed to process image"
                  ++ " (Status: " ++ toString status ++ ")") }
        | FetchOutcome.failure msg =>
            { s1 with error := some ("❌ Error uploading image: " ++ msg) }
      { s2 with loading := false }

/-- The JSON payload built by `handleSeeMoreClick` (App.jsx:109–119). -/
structure DetailPayload where
  content : String
  predicted_class : String
  severity : ℚ
  severity_class : String
deriving DecidableEq

/-- The payload construction of `handleSeeMoreClick` (App.jsx:109–119):
a fixed instruction plus three `||`-fallback fields derived from the
stored analyze result. -/
def detailPayload (analyzeResult : AnalyzeResult) : DetailPayload :=
  { content := "Tell me about this disease and also provide prevention methods for this severity level."
  , predicted_class :=
      jsOrString (analyzeResult.disease_classification.bind
        DiseaseClassification.predicted_class) "Unknown"
  , severity :=
      jsOrNum (analyzeResult.disease_segmentation.bind
        DiseaseSegmentation.severity) 0
  , severity_class :=
      jsOrString (analyzeResult.disease_segmentation.bind
        DiseaseSegmentation.classification) "Unknown" }

/-- `handleSeeMoreClick` (App.jsx:102–142), as a function of the fetch
outcome. -/
def handleSeeMoreClick (outcome : FetchOutcome RagResult)
    (s : SessionState) : SessionState :=
  match s.analyzeResult with
  | none =>
      { s with error := some "❌ No analysis data available to fetch more details" }
  | some _ =>
      let s1 := { s with ragLoading := true }
      let s2 :=
        match outcome with
        | FetchOutcome.response status data =>
            if resOk status then
              { s1 with ragResult := some data, error := none }
            else
              { s1 with error := some ("❌ RAG API error: "
                  ++ jsOrString data.error "Failed to get RAG output"
                  ++ " (Status: " ++ toString status ++ ")") }
        | FetchOutcome.failure msg =>
            { s1 with error := some ("❌ Error fetching RAG data: " ++ msg) }
      { s2 with ragLoading := false }

/-- The healthy bar/slice color constant (App.jsx:160). -/
def healthyColor : String := "#4CAF50"

/-- The disease bar color constant (App.jsx:161). -/
def diseaseColor : String := "#F44336"

/-- ASCII lowering of one character, the behavior of JS `toLowerCase`
on the ASCII range. -/
def charLower (c : Char) : Char :=
  match c with
  | 'A' => 'a' | 'B' => 'b' | 'C' => 'c' | 'D' => 'd' | 'E' => 'e' | 'F' => 'f'
  | 'G' => 'g' | 'H' => 'h' | 'I' => 'i' | 'J' => 'j' | 'K' => 'k' | 'L' => 'l'
  | 'M' => 'm' | 'N' => 'n' | 'O' => 'o' | 'P' => 'p' | 'Q' => 'q' | 'R' => 'r'
  | 'S' => 's' | 'T' => 't' | 'U' => 'u' | 'V' => 'v' | 'W' => 'w' | 'X' => 'x'
  | 'Y' => 'y' | 'Z' => 'z'
  | c => c

/-- JS `String.prototype.toLowerCase`, on the ASCII labels this client
handles. -/
def jsToLowerCase (s : String) : String :=
  String.mk (s.data.map charLower)

/-- `getSeverityColor` (App.jsx:144–157): `level?.toLowerCase()` is
`undefined` for a missing level, reaching the default branch. -/
def getSeverityColor (level : Option String) : String :=
  match level with
  | none => "#9E9E9E"
  | some l =>
      match jsToLowerCase l with
      | "mild" => "#FFC107"
      | "moderate" => "#FF9800"
      | "severe" => "#F44336"
      | "healthy" => "#4CAF50"
      | _ => "#9E9E9E"

/-- `severityPercentage` (App.jsx:159):
`analyzeResult?.disease_segmentation?.severity || 0`. -/
def severityPercentage (analyzeResult : AnalyzeResult) : ℚ :=
  jsOrNum (analyzeResult.disease_segmentation.bind
    DiseaseSegmentation.severity) 0

/-- JS `Number.prototype.toFixed(2)` on a rational, read back as the
rational it denotes: round to 2 decimal places. -/
def toFixed2 (x : ℚ) : ℚ :=
  ((round (x * 100) : ℤ) : ℚ) / 100

/-- A normalized chart series: labels, values, per-item colors. -/
structure ChartSeries where
  labels : List String
  values : List ℚ
  colors : List String
deriving DecidableEq

/-- The `Bar` data of App.jsx:212–231. `analyzeResult.disease_classification`
is accessed without optional chaining, so a missing
`disease_classification` throws a TypeError; otherwise
`probabilities || {}` defaults the map, and labels, values and colors are
three traversals of it (`Object.keys`, `Object.values.map`,
`Object.keys.map`), which share the object's insertion order. -/
def barChartData (analyzeResult : AnalyzeResult) : Except String ChartSeries :=
  match analyzeResult.disease_classification with
  | none => Except.error "TypeError: cannot read probabilities of undefined"
  | some c =>
      let o := c.probabilities.getD []
      Except.ok
        { labels := o.map Prod.fst
        , values := o.map (fun kv => toFixed2 (kv.2 * 100))
        , colors := o.map (fun kv =>
            if jsToLowerCase kv.1 = "healthy" then healthyColor else diseaseColor) }

/-- The `Doughnut` data of App.jsx:264–279: two fixed labels, the
severity split, and the classification-colored diseased slice. -/
def doughnutData (analyzeResult : AnalyzeResult) : ChartSeries :=
  { labels := ["Diseased", "Healthy"]
  , values := [severityPercentage analyzeResult,
               100 - severityPercentage analyzeResult]
  , colors := [getSeverityColor (analyzeResult.disease_segmentation.bind
                 DiseaseSegmentation.classification),
               healthyColor] }

/-- The detail text rendering of App.jsx:421–427:
`ragResult?.message || ragResult?.answer || ragResult?.response`, and the
placeholder literal when that chain is falsy. -/
def ragDisplay (ragResult : RagResult) : String :=
  let t := jsOrOpt ragResult.message (jsOrOpt ragResult.answer ragResult.response)
  if truthyStr t then t.getD "" else "No response available"

/-- The `analyze-btn` disabled condition (App.jsx:184). -/
def analyzeBtnDisabled (s : SessionState) : Bool :=
  s.loading || s.file.isNone

/-- The `see-more-btn` disabled condition (App.jsx:402). -/
def seeMoreBtnDisabled (s : SessionState) : Bool :=
  s.loading || s.ragLoading

/-- Spec-side formulation: the first non-empty string among an ordered
list of optional response fields. -/
def firstNonEmpty : List (Option String) → Option String
  | [] => none
  | none :: rest => firstNonEmpty rest
  | some s :: rest => if s = "" then firstNonEmpty rest else some s

/-- Spec-side formulation: a value rounded to 2 decimal places, written
with the floor form of rounding half up. -/
def roundTo2 (x : ℚ) : ℚ :=
  ((⌊x * 100 + 1 / 2⌋ : ℤ) : ℚ) / 100

/-- A sample valid image file. -/
def sampleFile : JSFile :=
  { type := some "image/png", name := "leaf.png" }

/-- A sample segmentation: severity 35, classified Moderate. -/
def sampleSeg : DiseaseSegmentation :=
  { severity := some 35, classification := some "Moderate"
  , boundary_pixels := none, disease_pixels := none, total_leaf_area := none
  , original_image := none, diseased_area_image := none, annotated_image := none }

/-- A sample analyze result with probabilities Healthy 0.9, Rust 0.1. -/
def sampleAnalyze : AnalyzeResult :=
  { disease_classification := some
      { predicted_class := some "Rust"
      , probabilities := some [("Healthy", 9/10), ("Rust", 1/10)] }
  , disease_segmentation := some sampleSeg
  , error := none }

/-- An analyze-failure body carrying a server error message. -/
def badImageBody : AnalyzeResult :=
  { disease_classification := none, disease_segmentation := none
  , error := some "bad image" }

/-- A state with a selected file and a stored prior analysis result. -/
def analyzedState : SessionState :=
  { initialState with
      file := some sampleFile
      previewUrl := some "blob:leaf.png"
      analyzeResult := some sampleAnalyze }

/-- A state with a detail request in flight and a file selected. -/
def ragBusyState : SessionState :=
  { initialState with
      ragLoading := true
      file := some sampleFile
      analyzeResult := some sampleAnalyze }

/-- `jsOrNum o 0` is the identity on a present value: `x || 0 = x` for
every number `x` (also when `x = 0`). -/
lemma jsOrNum_some (x : ℚ) : jsOrNum (some x) 0 = x := by
  by_cases h : x = 0 <;> simp [jsOrNum, h]

/-- Claim C1 is false on the code: after an analyze completing with a
non-ok status, the previously stored analysis result is still present —
it is not cleared to none. -/
theorem C1_counterexample :
    (handleSendClick (FetchOutcome.response 500 badImageBody) analyzedState).analyzeResult
      = some sampleAnalyze ∧
    (handleSendClick (FetchOutcome.response 500 badImageBody) analyzedState).analyzeResult.isSome
      = true :=
  ⟨rfl, rfl⟩

/-- Claim C1 (amended): every analyze call that completes unsuccessfully
(non-ok HTTP status, or thrown transport/parse failure) leaves the stored
analysisResult unchanged — a prior analysis result persists after a
failed analyze; it is not cleared. -/
theorem C1_failed_analyze_preserves_result (f : JSFile) (s : SessionState)
    (status : Nat) (data : AnalyzeResult) (msg : String)
    (h : resOk status = false) :
    (handleSendClick (FetchOutcome.response status data)
        { s with file := some f }).analyzeResult = s.analyzeResult ∧
    (handleSendClick (FetchOutcome.failure msg)
        { s with file := some f }).analyzeResult = s.analyzeResult := by
  constructor
  · simp [handleSendClick, h]
  · rfl

/-- Witness for C1's amended theorem at status 500 and a transport error. -/
theorem C1_witness :
    (handleSendClick (FetchOutcome.response 500 badImageBody)
        { initialState with file := some sampleFile }).analyzeResult
      = initialState.analyzeResult ∧
    (handleSendClick (FetchOutcome.failure "Failed to fetch")
        { initialState with file := some sampleFile }).analyzeResult
      = initialState.analyzeResult :=
  C1_failed_analyze_preserves_result sampleFile initialState 500 badImageBody
    "Failed to fetch" rfl

/-- The state left by an invalid selection from `analyzedState`. -/
def invalidSelectionOut : SessionState :=
  { analyzedState with
      file := none
      previewUrl := none
      error := none
      analyzeResult := none
      ragResult := none }

/-- Claim C2: on an invalid selection the image, preview and results are
cleared, but because `resetState()` runs after `setError(...)`, the final
notice is none — the validation message is wiped, contradicting the
specified Error notice (a slip: the message set on App.jsx:53 is dead). -/
theorem C2_invalid_selection_notice_wiped :
    handleImageFile (some { type := some "text/plain", name := "notes.txt" })
        analyzedState = Except.ok invalidSelectionOut ∧
    invalidSelectionOut.error = none ∧
    invalidSelectionOut.file = none ∧
    invalidSelectionOut.previewUrl = none ∧
    invalidSelectionOut.analyzeResult = none ∧
    invalidSelectionOut.ragResult = none :=
  ⟨rfl, rfl, rfl, rfl, rfl, rfl⟩

/-- Claim C3 is false on the code: with a detail request in flight
(`ragLoading = true`) and a file selected, the analyze trigger is
enabled. -/
theorem C3_counterexample :
    ragBusyState.ragLoading = true ∧ analyzeBtnDisabled ragBusyState = false :=
  ⟨rfl, rfl⟩

/-- Claim C3 (amended): the detail trigger is disabled whenever
`ragLoading` or `loading` is true, but the analyze trigger is disabled
exactly when `loading` is true or no file is selected — it is not
disabled during an in-flight detail fetch. -/
theorem C3_trigger_disabling (s : SessionState) :
    (s.loading = true ∨ s.ragLoading = true → seeMoreBtnDisabled s = true) ∧
    analyzeBtnDisabled s = (s.loading || s.file.isNone) := by
  refine ⟨?_, rfl⟩
  rintro (h | h) <;> simp [seeMoreBtnDisabled, h]

/-- Witness for C3's amended theorem at a state with a detail request in
flight. -/
theorem C3_witness :
    seeMoreBtnDisabled ragBusyState = true ∧
    analyzeBtnDisabled ragBusyState
      = (ragBusyState.loading || ragBusyState.file.isNone) :=
  ⟨(C3_trigger_disabling ragBusyState).1 (Or.inr rfl),
   (C3_trigger_disabling ragBusyState).2⟩

/-- Claim C6 is false on the code: a present candidate whose `type`
property is missing is handled by neither branch — the access
`selectedFile?.type.startsWith("image/")` throws a TypeError. -/
theorem C6_counterexample :
    handleImageFile (some { type := none, name := "mystery" }) initialState
      = Except.error "TypeError: undefined has no method startsWith" ∧
    exceptOk (handleImageFile (some { type := none, name := "mystery" })
      initialState) = false :=
  ⟨rfl, rfl⟩

/-- Claim C6 (amended): selectFile never throws for a missing candidate
or for any candidate carrying a mimeType string (empty included); only a
present candidate whose mimeType property is missing escapes the two
branches by throwing. -/
theorem C6_no_throw_with_mimeType (s : SessionState) (t nm : String) :
    exceptOk (handleImageFile none s) = true ∧
    exceptOk (handleImageFile (some { type := some t, name := nm }) s)
      = true := by
  refine ⟨rfl, ?_⟩
  cases h : jsStartsWith t "image/" <;> simp [handleImageFile, exceptOk, h]

/-- Claim C7: after every completion of analyze or requestDetail —
success, remote rejection, or thrown transport/parse failure — the
corresponding loading flag is false. -/
theorem C7_loading_flags_cleared (f : JSFile) (r : AnalyzeResult)
    (s t : SessionState) (o : FetchOutcome AnalyzeResult)
    (p : FetchOutcome RagResult) :
    (handleSendClick o { s with file := some f }).loading = false ∧
    (handleSeeMoreClick p { t with analyzeResult := some r }).ragLoading
      = false :=
  ⟨rfl, rfl⟩

/-- Claim C4: the bar series takes the probability-map keys in iteration
order, each probability × 100 rounded to 2 decimal places, and the green
color exactly for labels case-insensitively equal to "healthy"; on
probabilities Healthy 0.9, Rust 0.1 this is labels Healthy and Rust,
values 90 and 10, colors green then red. -/
theorem C4_bar_series (pc : Option String) (probs : List (String × ℚ))
    (seg : Option DiseaseSegmentation) (er : Option String) :
    barChartData { disease_classification := some { predicted_class := pc
                                                  , probabilities := some probs }
                 , disease_segmentation := seg, error := er }
      = Except.ok
          { labels := probs.map Prod.fst
          , values := probs.map (fun kv => roundTo2 (kv.2 * 100))
          , colors := probs.map (fun kv =>
              if jsToLowerCase kv.1 = "healthy" then healthyColor
              else diseaseColor) } ∧
    barChartData sampleAnalyze
      = Except.ok { labels := ["Healthy", "Rust"], values := [90, 10]
                  , colors := ["#4CAF50", "#F44336"] } := by
  constructor
  · simp [barChartData, toFixed2, roundTo2, round_eq]
  · have hH : jsToLowerCase "Healthy" = "healthy" := by decide
    have hR : jsToLowerCase "Rust" = "rust" := by decide
    simp [barChartData, sampleAnalyze, hH, hR, healthyColor, diseaseColor]
    norm_num [toFixed2]

/-- A result whose disease_classification is absent. -/
def noClassResult : AnalyzeResult :=
  { disease_classification := none, disease_segmentation := some sampleSeg
  , error := none }

/-- Claim C5 is false on the code: when disease_classification itself is
absent the probability map is absent, yet the bar projection throws a
TypeError (the access on App.jsx:215 is not optional-chained) instead of
rendering an empty series. -/
theorem C5_counterexample :
    barChartData noClassResult
      = Except.error "TypeError: cannot read probabilities of undefined" ∧
    exceptOk (barChartData noClassResult) = false :=
  ⟨rfl, rfl⟩

/-- Claim C5 (amended): when disease_classification is present, an
absent or empty probability map yields an empty series without error;
but when disease_classification itself is absent the projection throws. -/
theorem C5_empty_probabilities (pc : Option String)
    (seg : Option DiseaseSegmentation) (er : Option String) :
    barChartData { disease_classification := some { predicted_class := pc
                                                  , probabilities := none }
                 , disease_segmentation := seg, error := er }
      = Except.ok { labels := [], values := [], colors := [] } ∧
    barChartData { disease_classification := some { predicted_class := pc
                                                  , probabilities := some [] }
                 , disease_segmentation := seg, error := er }
      = Except.ok { labels := [], values := [], colors := [] } ∧
    exceptOk (barChartData { disease_classification := none
                           , disease_segmentation := seg, error := er })
      = false :=
  ⟨rfl, rfl, rfl⟩

/-- A detail response whose only text-bearing key holds an empty string. -/
def emptyAnswerRag : RagResult :=
  { message := none, answer := some "", response := none, error := none }

/-- Claim C8 is false on the code: with `answer` present but empty, the
first present candidate key holds `""`, yet the rendering shows the
placeholder — and that placeholder reads "No response available", not
"no content available". -/
theorem C8_counterexample :
    ragDisplay emptyAnswerRag = "No response available" ∧
    emptyAnswerRag.message = none ∧ emptyAnswerRag.answer = some "" :=
  ⟨rfl, rfl, rfl⟩

/-- Claim C8 (amended): the displayed detail text is the first non-empty
string among message, answer, response in that order; when none is
present and non-empty, it is the literal "No response available". -/
theorem C8_detail_text_resolution (rr : RagResult) :
    ragDisplay rr
      = (firstNonEmpty [rr.message, rr.answer, rr.response]).getD
          "No response available" := by
  rcases rr with ⟨m, a, r, er⟩
  cases m <;> cases a <;> cases r <;>
    simp only [ragDisplay, jsOrOpt, truthyStr, firstNonEmpty] <;>
    split_ifs <;> simp_all

/-- Claim C9: the donut series is the two slices Diseased = severity
(0 when absent) and Healthy = 100 − severity, the diseased slice colored
by the classification lookup (Mild amber, Moderate orange, Severe red,
Healthy green, anything else or absent gray) and the healthy slice fixed
green; on severity 35 classified Moderate this is 35 orange and 65
green. -/
theorem C9_donut_series (sg : DiseaseSegmentation) (sev : ℚ)
    (dc : Option DiseaseClassification) (er : Option String) :
    doughnutData { disease_classification := dc
                 , disease_segmentation := some
                     { sg with
                         severity := some sev
                         classification := some "Mild" }
                 , error := er }
      = { labels := ["Diseased", "Healthy"], values := [sev, 100 - sev]
        , colors := ["#FFC107", "#4CAF50"] } ∧
    doughnutData { disease_classification := dc
                 , disease_segmentation := some
                     { sg with
                         severity := some sev
                         classification := some "Moderate" }
                 , error := er }
      = { labels := ["Diseased", "Healthy"], values := [sev, 100 - sev]
        , colors := ["#FF9800", "#4CAF50"] } ∧
    doughnutData { disease_classification := dc
                 , disease_segmentation := some
                     { sg with
                         severity := some sev
                         classification := some "Severe" }
                 , error := er }
      = { labels := ["Diseased", "Healthy"], values := [sev, 100 - sev]
        , colors := ["#F44336", "#4CAF50"] } ∧
    doughnutData { disease_classification := dc
                 , disease_segmentation := some
                     { sg with
                         severity := some sev
                         classification := some "Healthy" }
                 , error := er }
      = { labels := ["Diseased", "Healthy"], values := [sev, 100 - sev]
        , colors := ["#4CAF50", "#4CAF50"] } ∧
    doughnutData { disease_classification := dc
                 , disease_segmentation := some
                     { sg with
                         severity := some sev
                         classification := some "Unknown" }
                 , error := er }
      = { labels := ["Diseased", "Healthy"], values := [sev, 100 - sev]
        , colors := ["#9E9E9E", "#4CAF50"] } ∧
    doughnutData { disease_classification := dc
                 , disease_segmentation := some
                     { sg with
                         severity := some sev
                         classification := none }
                 , error := er }
      = { labels := ["Diseased", "Healthy"], values := [sev, 100 - sev]
        , colors := ["#9E9E9E", "#4CAF50"] } ∧
    doughnutData { disease_classification := dc
                 , disease_segmentation := some
                     { sg with
                         severity := none
                         classification := some "Moderate" }
                 , error := er }
      = { labels := ["Diseased", "Healthy"], values := [0, 100]
        , colors := ["#FF9800", "#4CAF50"] } ∧
    doughnutData sampleAnalyze
      = { labels := ["Diseased", "Healthy"], values := [35, 65]
        , colors := ["#FF9800", "#4CAF50"] } := by
  have cM : getSeverityColor (some "Mild") = "#FFC107" := by decide
  have cMo : getSeverityColor (some "Moderate") = "#FF9800" := by decide
  have cS : getSeverityColor (some "Severe") = "#F44336" := by decide
  have cH : getSeverityColor (some "Healthy") = "#4CAF50" := by decide
  have cU : getSeverityColor (some "Unknown") = "#9E9E9E" := by decide
  have cN : getSeverityColor none = "#9E9E9E" := rfl
  refine ⟨?_, ?_, ?_, ?_, ?_, ?_, ?_, ?_⟩ <;>
    simp [doughnutData, severityPercentage, jsOrNum_some, healthyColor,
      cM, cMo, cS, cH, cU, cN, sampleAnalyze, sampleSeg] <;>
    norm_num [jsOrNum]

/-- A result whose predicted_class is present but the empty string. -/
def emptyLabelResult : AnalyzeResult :=
  { disease_classification := some { predicted_class := some ""
                                   , probabilities := some [] }
  , disease_segmentation := none, error := none }

/-- Claim C10 is false on the code: an AnalysisResult whose
predicted_class is present and equal to the empty string does not pass it
through — the `||` fallback replaces it with "Unknown". -/
theorem C10_counterexample :
    (detailPayload emptyLabelResult).predicted_class = "Unknown" ∧
    emptyLabelResult.disease_classification.bind
      DiseaseClassification.predicted_class = some "" :=
  ⟨rfl, rfl⟩

/-- Claim C10 (amended): the payload carries the fixed instruction;
predicted_class is the predicted label when present and non-empty, else
"Unknown"; severity is the severity number or 0 when absent;
severity_class is the classification label when present and non-empty,
else "Unknown". -/
theorem C10_detail_payload (r : AnalyzeResult) :
    (detailPayload r).content
      = "Tell me about this disease and also provide prevention methods for this severity level." ∧
    (detailPayload r).predicted_class
      = (match r.disease_classification.bind
            DiseaseClassification.predicted_class with
         | none => "Unknown"
         | some s => if s = "" then "Unknown" else s) ∧
    (detailPayload r).severity
      = (r.disease_segmentation.bind DiseaseSegmentation.severity).getD 0 ∧
    (detailPayload r).severity_class
      = (match r.disease_segmentation.bind
            DiseaseSegmentation.classification with
         | none => "Unknown"
         | some s => if s = "" then "Unknown" else s) := by
  refine ⟨rfl, ?_, ?_, ?_⟩
  · cases h : r.disease_classification.bind
        DiseaseClassification.predicted_class <;>
      simp [detailPayload, jsOrString, h]
  · cases h : r.disease_segmentation.bind DiseaseSegmentation.severity with
    | none => simp [detailPayload, jsOrNum, h]
    | some x => simp [detailPayload, h, jsOrNum_some]
  · cases h : r.disease_segmentation.bind
        DiseaseSegmentation.classification <;>
      simp [detailPayload, jsOrString, h]

end KrishiRaksha
